import Mathlib

/-!
Shallow embedding of the command-dispatch core of the battery-charger serial
driver (`src/serial.c`, `includes/serial.h`).

Modelling conventions:
* C `uint8_t` fields are `Nat`; the validation logic only compares them, so no
  arithmetic wraps.
* A nullable pointer argument is an `Option`.
* The `sem_t` lock is modelled as always available: every `sem_wait`/`sem_post`
  on the module's own correctly initialised semaphore succeeds, so each
  critical section executes atomically and in program order.
* External collaborators called by `init` (`open`, `tcgetattr`, `tcsetattr`,
  `sem_init`, `calloc`) are an environment record of their results.
-/

/-- C macro `EXIT_SUCCESS`. -/
def EXIT_SUCCESS : Nat := 0

/-- C macro `EXIT_FAILURE`. -/
def EXIT_FAILURE : Nat := 1

/-- serial.h: maximum size of the command pool. -/
def POOL_SIZE : Nat := 32

/-- serial.h: maximum length for the port name string. -/
def MAX_PORT_NAME : Nat := 30

/-- serial.h: command code for setting battery charging parameters. -/
def CMD_SET_PARAMS : Nat := 0x63

/-- serial.h: command code for turning a channel on or off. -/
def CMD_ON_OFF : Nat := 0x64

/-- serial.h: command code for emergency operation. -/
def CMD_EMERGENCY : Nat := 0x65

/-- serial.h `device_command_t`.  The C `data` field is a union of
`cmd_set_params_t` (three bytes) and `cmd_on_off_t` (two bytes); the union is
modelled by its underlying bytes `data0 data1 data2`, and the two struct views
are the accessors below, so the aliasing of the C union is preserved. -/
structure device_command_t where
  command_type : Nat
  data0 : Nat
  data1 : Nat
  data2 : Nat
deriving DecidableEq, Repr

/-- The all-zero command produced by `calloc` for each pool entry. -/
instance : Inhabited device_command_t :=
  ⟨{ command_type := 0, data0 := 0, data1 := 0, data2 := 0 }⟩

/-- Union view `cmd->data.set_params.min_level` (first byte). -/
def device_command_t.min_level (c : device_command_t) : Nat := c.data0

/-- Union view `cmd->data.set_params.max_level` (second byte). -/
def device_command_t.max_level (c : device_command_t) : Nat := c.data1

/-- Union view `cmd->data.set_params.max_time` (third byte). -/
def device_command_t.max_time (c : device_command_t) : Nat := c.data2

/-- Union view `cmd->data.on_off.on_off` (first byte). -/
def device_command_t.on_off (c : device_command_t) : Nat := c.data0

/-- Union view `cmd->data.on_off.channel` (second byte). -/
def device_command_t.channel (c : device_command_t) : Nat := c.data1

/-- serial.c `is_valid_command`: returns `EXIT_SUCCESS` if the command is
valid, `EXIT_FAILURE` if not (including the NULL-pointer case). -/
def is_valid_command (cmd : Option device_command_t) : Nat :=
  match cmd with
  | none => EXIT_FAILURE
  | some c =>
    if c.command_type = CMD_SET_PARAMS then
      if c.min_level > 100 ∨ c.max_level > 100 ∨ c.max_time = 0 ∨
          c.max_time > 240 ∨ c.min_level > c.max_level then EXIT_FAILURE
      else EXIT_SUCCESS
    else if c.command_type = CMD_ON_OFF then
      if (c.on_off ≠ 0 ∧ c.on_off ≠ 1) ∨ c.channel > 7 then EXIT_FAILURE
      else EXIT_SUCCESS
    else if c.command_type = CMD_EMERGENCY then EXIT_SUCCESS
    else EXIT_FAILURE

/-- The static module state of serial.c: the `serial_fd` descriptor, the two
TAILQ pools (each represented by the list of commands stored in its entries,
head of the queue first) and the `initialized` flag.  The `pool_entries`
allocation is represented by the contents of the two queues. -/
structure SerialState where
  serial_fd : Int
  active_command_pool : List device_command_t
  unused_command_pool : List device_command_t
  initialized : Bool
deriving DecidableEq, Repr

/-- The module state before the first `init`: the statics as declared. -/
def uninitState : SerialState :=
  { serial_fd := -1, active_command_pool := [], unused_command_pool := [],
    initialized := false }

/-- Results of the external collaborators invoked by `init`: the transport
calls `open` / `tcgetattr` / `tcsetattr` and the allocations `sem_init` /
`calloc`. -/
structure Env where
  open_result : Int
  tcgetattr_ok : Bool
  tcsetattr_ok : Bool
  sem_init_ok : Bool
  calloc_ok : Bool
deriving DecidableEq, Repr

/-- Tail of serial.c `init` after the transport handle is recorded in
`serial_fd`: `sem_init`, the two `TAILQ_INIT`s, the `calloc` of
`pool_entries`, seeding all `POOL_SIZE` zeroed entries into the unused pool,
and setting `initialized`.  On `sem_init` failure the already-assigned
`serial_fd` is closed but the static keeps its value; on `calloc` failure the
pools were already re-initialised empty by `TAILQ_INIT`. -/
def init_tail (env : Env) (s : SerialState) : Nat × SerialState :=
  if env.sem_init_ok = false then (EXIT_FAILURE, s)
  else if env.calloc_ok = false then
    (EXIT_FAILURE, { s with active_command_pool := [], unused_command_pool := [] })
  else
    (EXIT_SUCCESS,
      { s with
        active_command_pool := [],
        unused_command_pool := List.replicate POOL_SIZE default,
        initialized := true })

/-- serial.c `init`.  `port_name = none` models a NULL pointer; the `speed`
argument is only passed to the transport.  For the literal port name
`/dev/null` the transport is skipped entirely and a dummy positive handle is
recorded. -/
def init (env : Env) (s : SerialState) (port_name : Option String) (_speed : Int) :
    Nat × SerialState :=
  if s.initialized then (EXIT_FAILURE, s)
  else
    match port_name with
    | none => (EXIT_FAILURE, s)
    | some p =>
      if p.length > MAX_PORT_NAME then (EXIT_FAILURE, s)
      else if p = ("/dev/null") then
        init_tail env { s with serial_fd := 1 }
      else if env.open_result < 0 then
        (EXIT_FAILURE, { s with serial_fd := env.open_result })
      else if env.tcgetattr_ok = false then
        (EXIT_FAILURE, { s with serial_fd := env.open_result })
      else if env.tcsetattr_ok = false then
        (EXIT_FAILURE, { s with serial_fd := env.open_result })
      else
        init_tail env { s with serial_fd := env.open_result }

/-- serial.c `deinit`: close the port, free the pool entries, destroy the
semaphore, clear `initialized`.  Freeing `pool_entries` invalidates both
queues wholesale, modelled as both pools becoming empty. -/
def deinit (s : SerialState) : Nat × SerialState :=
  if s.initialized = false then (EXIT_FAILURE, s)
  else
    (EXIT_SUCCESS,
      { serial_fd := -1, active_command_pool := [], unused_command_pool := [],
        initialized := false })

/-- serial.c `add`.  `cmd = none` models a NULL command pointer.  On success
the head entry of the unused pool is removed, the command is `memcpy`ed into
it, and the entry is appended to the tail of the active pool. -/
def add (s : SerialState) (cmd : Option device_command_t) : Nat × SerialState :=
  if s.initialized = false then (EXIT_FAILURE, s)
  else
    match cmd with
    | none => (EXIT_FAILURE, s)
    | some c =>
      if is_valid_command (some c) ≠ EXIT_SUCCESS then (EXIT_FAILURE, s)
      else
        match s.unused_command_pool with
        | [] => (EXIT_FAILURE, s)
        | _stale :: rest =>
          (EXIT_SUCCESS,
            { s with
              unused_command_pool := rest,
              active_command_pool := s.active_command_pool ++ [c] })

/-- serial.c `get_next_command`.  `dest_valid = false` models a NULL output
pointer.  The middle component is the command written through the pointer,
which the C code does only on success.  On success the head entry of the
active pool is removed, copied out, and appended to the tail of the unused
pool. -/
def get_next_command (s : SerialState) (dest_valid : Bool) :
    Nat × Option device_command_t × SerialState :=
  if s.initialized = false ∨ dest_valid = false then (EXIT_FAILURE, none, s)
  else
    match s.active_command_pool with
    | [] => (EXIT_FAILURE, none, s)
    | e :: rest =>
      (EXIT_SUCCESS, some e,
        { s with
          active_command_pool := rest,
          unused_command_pool := s.unused_command_pool ++ [e] })

/-- serial.c `get_active_command_count`: 0 when not initialised, else the
length of the active pool. -/
def get_active_command_count (s : SerialState) : Nat :=
  if s.initialized = false then 0 else s.active_command_pool.length

/-- serial.c `get_unused_command_count`: 0 when not initialised, else the
length of the unused pool. -/
def get_unused_command_count (s : SerialState) : Nat :=
  if s.initialized = false then 0 else s.unused_command_pool.length

/-- The module state right after a successful `init` with transport handle
`fd`: active pool empty, all `POOL_SIZE` zeroed entries in the unused pool. -/
def freshState (fd : Int) : SerialState :=
  { serial_fd := fd, active_command_pool := [],
    unused_command_pool := List.replicate POOL_SIZE default,
    initialized := true }

/-- One producer or consumer call on the pool. -/
inductive SerialOp where
  | opAdd (cmd : Option device_command_t)
  | opGet (destValid : Bool)
deriving DecidableEq, Repr

/-- Module state after executing one call (result value discarded). -/
def step (s : SerialState) (op : SerialOp) : SerialState :=
  match op with
  | .opAdd c => (add s c).2
  | .opGet d => (get_next_command s d).2.2

/-- Module state after executing a sequence of calls. -/
def run (s : SerialState) (ops : List SerialOp) : SerialState :=
  ops.foldl step s

/-- The Emergency command of the spec's FIFO law (payload bytes zero). -/
def cmdE : device_command_t :=
  { command_type := CMD_EMERGENCY, data0 := 0, data1 := 0, data2 := 0 }

/-- The OnOff(1,1) command of the spec's FIFO law. -/
def cmdO : device_command_t :=
  { command_type := CMD_ON_OFF, data0 := 1, data1 := 1, data2 := 0 }

/-- The SetParams(20,80,60) command of the spec's FIFO law. -/
def cmdS : device_command_t :=
  { command_type := CMD_SET_PARAMS, data0 := 20, data1 := 80, data2 := 60 }

/-- FIFO bookkeeping used to state the ordering guarantee: the list of
commands admitted successfully and not yet retrieved (oldest first) together
with the number of free slots, updated per call exactly as a strict FIFO
queue of capacity-bounded admits. -/
def fifoStep : List device_command_t × Nat → SerialOp → List device_command_t × Nat
  | (pend, free), .opAdd (some c) =>
    if is_valid_command (some c) = EXIT_SUCCESS ∧ free ≠ 0
    then (pend ++ [c], free - 1) else (pend, free)
  | (pend, free), .opAdd none => (pend, free)
  | (pend, free), .opGet true =>
    (pend.tail, if pend.isEmpty then free else free + 1)
  | (pend, free), .opGet false => (pend, free)

/-- FIFO bookkeeping over a whole trace starting from a fresh pool. -/
def fifoRun (ops : List SerialOp) : List device_command_t × Nat :=
  ops.foldl fifoStep ([], POOL_SIZE)

/-- State after admitting Emergency, then OnOff(1,1), then SetParams(20,80,60)
into a fresh pool. -/
def scn0 : SerialState :=
  run (freshState 1)
    [SerialOp.opAdd (some cmdE), SerialOp.opAdd (some cmdO), SerialOp.opAdd (some cmdS)]

/-- State after the first retrieve of the FIFO-law scenario. -/
def scn1 : SerialState := (get_next_command scn0 true).2.2

/-- State after the second retrieve of the FIFO-law scenario. -/
def scn2 : SerialState := (get_next_command scn1 true).2.2

/-- State after the third retrieve of the FIFO-law scenario. -/
def scn3 : SerialState := (get_next_command scn2 true).2.2

/-- State of a fresh pool after 32 successful Emergency admits (full pool). -/
def fullState : SerialState :=
  run (freshState 1) (List.replicate POOL_SIZE (SerialOp.opAdd (some cmdE)))

/-- Iterate `get_next_command` with a valid destination `n` times. -/
def runGets (s : SerialState) : Nat → SerialState
  | 0 => s
  | n + 1 => runGets (get_next_command s true).2.2 n


/-- C1: `is_valid_command` returns `EXIT_SUCCESS` exactly when the per-tag
rule holds — SetParams valid iff `min_level ≤ 100 ∧ max_level ≤ 100 ∧
max_time ≠ 0 ∧ max_time ≤ 240 ∧ min_level ≤ max_level`; OnOff valid iff
`on_off ∈ {0,1} ∧ channel ≤ 7`; Emergency always valid; any other tag always
invalid — and it is total: every command maps to exactly one of the two
outcomes. -/
theorem is_valid_command_iff (c : device_command_t) :
    (is_valid_command (some c) = EXIT_SUCCESS ↔
      ((c.command_type = CMD_SET_PARAMS ∧ c.min_level ≤ 100 ∧ c.max_level ≤ 100 ∧
        c.max_time ≠ 0 ∧ c.max_time ≤ 240 ∧ c.min_level ≤ c.max_level) ∨
       (c.command_type = CMD_ON_OFF ∧ (c.on_off = 0 ∨ c.on_off = 1) ∧ c.channel ≤ 7) ∨
       c.command_type = CMD_EMERGENCY)) ∧
    (is_valid_command (some c) = EXIT_SUCCESS ∨ is_valid_command (some c) = EXIT_FAILURE) := by
  unfold is_valid_command EXIT_SUCCESS EXIT_FAILURE CMD_SET_PARAMS CMD_ON_OFF CMD_EMERGENCY
  dsimp only
  constructor
  · split_ifs with h1 h2 h3 h4 h5 <;> simp_all <;> omega
  · split_ifs <;> simp

/-- Executing one call on an initialised state tracks the FIFO bookkeeping:
the active pool is the pending list and the unused length is the free count. -/
lemma step_fifo (s : SerialState) (op : SerialOp) (h : s.initialized = true) :
    (step s op).initialized = true ∧
    (step s op).active_command_pool =
      (fifoStep (s.active_command_pool, s.unused_command_pool.length) op).1 ∧
    (step s op).unused_command_pool.length =
      (fifoStep (s.active_command_pool, s.unused_command_pool.length) op).2 := by
  cases op with
  | opAdd cmd =>
    cases cmd with
    | none => simp [step, add, fifoStep, h]
    | some c =>
      by_cases hv : is_valid_command (some c) = EXIT_SUCCESS
      · cases hu : s.unused_command_pool with
        | nil => simp [step, add, fifoStep, h, hv, hu]
        | cons a rest => simp [step, add, fifoStep, h, hv, hu]
      · simp [step, add, fifoStep, h, hv]
  | opGet d =>
    cases d with
    | false => simp [step, get_next_command, fifoStep, h]
    | true =>
      cases ha : s.active_command_pool with
      | nil => simp [step, get_next_command, fifoStep, h, ha]
      | cons a rest => simp [step, get_next_command, fifoStep, h, ha]

/-- Executing a whole trace on an initialised state tracks the FIFO
bookkeeping started from that state's pending list and free count. -/
lemma run_fifo (ops : List SerialOp) (s : SerialState) (h : s.initialized = true) :
    (run s ops).initialized = true ∧
    (run s ops).active_command_pool =
      (ops.foldl fifoStep (s.active_command_pool, s.unused_command_pool.length)).1 ∧
    (run s ops).unused_command_pool.length =
      (ops.foldl fifoStep (s.active_command_pool, s.unused_command_pool.length)).2 := by
  induction ops generalizing s with
  | nil => simpa [run] using h
  | cons op rest ih =>
    have hs := step_fifo s op h
    have hpair : fifoStep (s.active_command_pool, s.unused_command_pool.length) op
        = ((step s op).active_command_pool, (step s op).unused_command_pool.length) := by
      rw [Prod.ext_iff]
      exact ⟨hs.2.1.symm, hs.2.2.symm⟩
    have ih2 := ih (step s op) hs.1
    simpa [run, hpair] using ih2

/-- C2: strict FIFO — from a freshly initialised pool, after any trace of
admits and retrieves the active pool equals the FIFO bookkeeping's pending
list (commands admitted successfully and not yet retrieved, oldest first), a
retrieve at that point returns exactly the oldest pending command, and on an
empty pending list it returns the empty-queue result; in particular admitting
Emergency, OnOff(1,1), SetParams(20,80,60) and retrieving three times yields
exactly that order and a fourth retrieve returns the empty-queue result. -/
theorem fifo_strict_ordering (fd : Int) (ops : List SerialOp) :
    (run (freshState fd) ops).active_command_pool = (fifoRun ops).1 ∧
    (∀ c pend, (fifoRun ops).1 = c :: pend →
        (get_next_command (run (freshState fd) ops) true).1 = EXIT_SUCCESS ∧
        (get_next_command (run (freshState fd) ops) true).2.1 = some c) ∧
    ((fifoRun ops).1 = [] →
        get_next_command (run (freshState fd) ops) true =
          (EXIT_FAILURE, none, run (freshState fd) ops)) ∧
    ((get_next_command scn0 true).1 = EXIT_SUCCESS ∧
      (get_next_command scn0 true).2.1 = some cmdE ∧
      (get_next_command scn1 true).1 = EXIT_SUCCESS ∧
      (get_next_command scn1 true).2.1 = some cmdO ∧
      (get_next_command scn2 true).1 = EXIT_SUCCESS ∧
      (get_next_command scn2 true).2.1 = some cmdS ∧
      get_next_command scn3 true = (EXIT_FAILURE, none, scn3)) := by
  have hrun := run_fifo ops (freshState fd) rfl
  have hact : (run (freshState fd) ops).active_command_pool = (fifoRun ops).1 := by
    simpa [freshState, fifoRun] using hrun.2.1
  have hinit : (run (freshState fd) ops).initialized = true := hrun.1
  refine ⟨hact, ?_, ?_, ?_⟩
  · intro c pend hc
    constructor <;> simp [get_next_command, hinit, hact, hc]
  · intro hc
    simp [get_next_command, hinit, hact, hc]
  · exact ⟨by decide, by decide, by decide, by decide, by decide, by decide, by decide⟩

/-- C2 witness: a concrete application — after one successful Emergency admit
from a fresh pool, the retrieve returns that Emergency command. -/
theorem fifo_strict_ordering_witness :
    (get_next_command (run (freshState 1) [SerialOp.opAdd (some cmdE)]) true).2.1 =
      some cmdE :=
  ((fifo_strict_ordering 1 [SerialOp.opAdd (some cmdE)]).2.1 cmdE [] (by decide)).2

/-- A successful `init` always produces the freshly-initialised pool shape for
some transport handle. -/
lemma init_success (env : Env) (s : SerialState) (pn : Option String) (spd : Int)
    (h : (init env s pn spd).1 = EXIT_SUCCESS) :
    ∃ fd, init env s pn spd = (EXIT_SUCCESS, freshState fd) := by
  rcases pn with _ | p <;>
    unfold init init_tail at h ⊢ <;> dsimp only at h ⊢ <;>
    split_ifs at h ⊢
  all_goals try exact ⟨_, rfl⟩
  all_goals simp [EXIT_SUCCESS, EXIT_FAILURE] at h

/-- C3: capacity invariant — a successful `init` establishes active count 0
and unused count `POOL_SIZE` (so their sum is `POOL_SIZE`), and on any
initialised state whose counts sum to `POOL_SIZE`, every `add` and every
`get_next_command`, succeeding or failing, preserves that sum. -/
theorem capacity_invariant :
    (∀ env s pn spd, (init env s pn spd).1 = EXIT_SUCCESS →
        get_active_command_count (init env s pn spd).2 = 0 ∧
        get_unused_command_count (init env s pn spd).2 = POOL_SIZE) ∧
    (∀ s cmd, s.initialized = true →
        get_active_command_count s + get_unused_command_count s = POOL_SIZE →
        get_active_command_count (add s cmd).2 +
          get_unused_command_count (add s cmd).2 = POOL_SIZE) ∧
    (∀ s d, s.initialized = true →
        get_active_command_count s + get_unused_command_count s = POOL_SIZE →
        get_active_command_count (get_next_command s d).2.2 +
          get_unused_command_count (get_next_command s d).2.2 = POOL_SIZE) := by
  refine ⟨?_, ?_, ?_⟩
  · intro env s pn spd h
    obtain ⟨fd, hfd⟩ := init_success env s pn spd h
    rw [hfd]
    simp [get_active_command_count, get_unused_command_count, freshState]
  · intro s cmd hi hsum
    rcases cmd with _ | c
    · simpa [add, hi] using hsum
    · by_cases hv : is_valid_command (some c) = EXIT_SUCCESS
      · cases hu : s.unused_command_pool with
        | nil => simpa [add, hi, hv, hu] using hsum
        | cons a rest =>
          simp [add, hi, hv, hu, get_active_command_count,
            get_unused_command_count] at hsum ⊢
          omega
      · simpa [add, hi, hv] using hsum
  · intro s d hi hsum
    cases d with
    | false => simpa [get_next_command, hi] using hsum
    | true =>
      cases ha : s.active_command_pool with
      | nil => simpa [get_next_command, hi, ha] using hsum
      | cons a rest =>
        simp [get_next_command, hi, ha, get_active_command_count,
          get_unused_command_count] at hsum ⊢
        omega

/-- C3 witness: the invariant applied concretely — a fresh `init` on
`/dev/null` yields counts 0 and 32, and one admit plus one retrieve on a
fresh pool both keep the sum at 32. -/
theorem capacity_invariant_witness :
    (get_active_command_count
        (init ⟨1, true, true, true, true⟩ uninitState (some ("/dev/null")) 0).2 = 0 ∧
      get_unused_command_count
        (init ⟨1, true, true, true, true⟩ uninitState (some ("/dev/null")) 0).2 = POOL_SIZE) ∧
    get_active_command_count (add (freshState 1) (some cmdE)).2 +
      get_unused_command_count (add (freshState 1) (some cmdE)).2 = POOL_SIZE ∧
    get_active_command_count (get_next_command (freshState 1) true).2.2 +
      get_unused_command_count (get_next_command (freshState 1) true).2.2 = POOL_SIZE :=
  ⟨capacity_invariant.1 ⟨1, true, true, true, true⟩ uninitState (some ("/dev/null")) 0
      (by decide),
   capacity_invariant.2.1 (freshState 1) (some cmdE) rfl (by decide),
   capacity_invariant.2.2 (freshState 1) true rfl (by decide)⟩

/-- C4: admit failure atomicity — on any initialised pool, an `add` that
fails for a NULL command, an invalid command, or an empty unused pool (pool
full) returns `EXIT_FAILURE` with the state (both queues, all stored
commands) completely unchanged; in particular after 32 successful admits the
unused pool is empty and the 33rd admit fails leaving the state unchanged. -/
theorem add_failure_atomic :
    (∀ s cmd, s.initialized = true →
        (cmd = none ∨ is_valid_command cmd ≠ EXIT_SUCCESS ∨
          s.unused_command_pool = []) →
        add s cmd = (EXIT_FAILURE, s)) ∧
    fullState.unused_command_pool = [] ∧
    add fullState (some cmdE) = (EXIT_FAILURE, fullState) := by
  refine ⟨?_, by decide, by decide⟩
  intro s cmd hi hfail
  rcases cmd with _ | c
  · simp [add, hi]
  · rcases hfail with h | h | h
    · exact absurd h (by simp)
    · simp [add, hi, h]
    · by_cases hv : is_valid_command (some c) = EXIT_SUCCESS
      · simp [add, hi, hv, h]
      · simp [add, hi, hv]

/-- C4 witness: the failure cases applied concretely — NULL command, invalid
command (unknown tag 0xFF), and the full pool each leave the state as it
was. -/
theorem add_failure_atomic_witness :
    add (freshState 1) none = (EXIT_FAILURE, freshState 1) ∧
    add (freshState 1) (some { command_type := 0xFF, data0 := 0, data1 := 0, data2 := 0 }) =
      (EXIT_FAILURE, freshState 1) ∧
    add fullState (some cmdE) = (EXIT_FAILURE, fullState) :=
  ⟨add_failure_atomic.1 (freshState 1) none rfl (Or.inl rfl),
   add_failure_atomic.1 (freshState 1)
      (some { command_type := 0xFF, data0 := 0, data1 := 0, data2 := 0 }) rfl
      (Or.inr (Or.inl (by decide))),
   add_failure_atomic.1 fullState (some cmdE) (by decide)
      (Or.inr (Or.inr (by decide)))⟩

/-- Iterated retrieves on an initialised state drop the retrieved prefix of
the active pool and keep the module initialised. -/
lemma runGets_drop (n : Nat) (s : SerialState) (h : s.initialized = true) :
    (runGets s n).initialized = true ∧
    (runGets s n).active_command_pool = s.active_command_pool.drop n := by
  induction n generalizing s with
  | zero => simpa [runGets] using h
  | succ m ih =>
    cases ha : s.active_command_pool with
    | nil =>
      have hstep : (get_next_command s true).2.2 = s := by
        simp [get_next_command, h, ha]
      have := ih (get_next_command s true).2.2 (by rw [hstep]; exact h)
      simpa [runGets, hstep, ha] using this
    | cons a rest =>
      have hstep : (get_next_command s true).2.2 =
          { s with
            active_command_pool := rest,
            unused_command_pool := s.unused_command_pool ++ [a] } := by
        simp [get_next_command, h, ha]
      have := ih (get_next_command s true).2.2 (by rw [hstep]; exact h)
      rw [hstep] at this
      simpa [runGets, hstep, ha] using this

/-- C5: round-trip — admitting a valid command `c` into any initialised pool
with a free slot succeeds, and after retrieving the commands that were
pending ahead of it, the retrieve that dequeues `c` succeeds and returns a
command equal to `c` field for field. -/
theorem add_get_round_trip (s : SerialState) (c : device_command_t)
    (hi : s.initialized = true)
    (hv : is_valid_command (some c) = EXIT_SUCCESS)
    (hfree : s.unused_command_pool ≠ []) :
    (add s (some c)).1 = EXIT_SUCCESS ∧
    (get_next_command
        (runGets (add s (some c)).2 s.active_command_pool.length) true).1 =
      EXIT_SUCCESS ∧
    (get_next_command
        (runGets (add s (some c)).2 s.active_command_pool.length) true).2.1 =
      some c := by
  rcases hu : s.unused_command_pool with _ | ⟨a, rest⟩
  · exact absurd hu hfree
  have hadd : add s (some c) =
      (EXIT_SUCCESS,
        { s with
          unused_command_pool := rest,
          active_command_pool := s.active_command_pool ++ [c] }) := by
    simp [add, hi, hv, hu]
  have hX1 : (add s (some c)).2.initialized = true := by rw [hadd]; exact hi
  have hX2 : (add s (some c)).2.active_command_pool =
      s.active_command_pool ++ [c] := by rw [hadd]
  have hdrop := runGets_drop s.active_command_pool.length (add s (some c)).2 hX1
  rw [hX2, List.drop_left] at hdrop
  refine ⟨by rw [hadd], ?_, ?_⟩ <;>
    simp [get_next_command, hdrop.1, hdrop.2]

/-- C5 witness: a concrete round trip — admitting SetParams(20,80,60) into a
fresh pool already holding one Emergency command and retrieving past that
command returns SetParams(20,80,60) unchanged. -/
theorem add_get_round_trip_witness :
    (add (add (freshState 1) (some cmdE)).2 (some cmdS)).1 = EXIT_SUCCESS ∧
    (get_next_command
        (runGets (add (add (freshState 1) (some cmdE)).2 (some cmdS)).2
          (add (freshState 1) (some cmdE)).2.active_command_pool.length) true).2.1 =
      some cmdS :=
  ⟨(add_get_round_trip (add (freshState 1) (some cmdE)).2 cmdS (by decide) (by decide)
      (by decide)).1,
   (add_get_round_trip (add (freshState 1) (some cmdE)).2 cmdS (by decide) (by decide)
      (by decide)).2.2⟩

/-- With a short-enough port name, cooperative allocation, and either the
`/dev/null` shortcut or a cooperative transport, `init` on an uninitialised
state succeeds and produces a fresh pool. -/
lemma init_ok (env : Env) (s : SerialState) (pn : String) (spd : Int)
    (hi : s.initialized = false) (hlen : pn.length ≤ MAX_PORT_NAME)
    (hsem : env.sem_init_ok = true) (hcal : env.calloc_ok = true)
    (htr : pn = ("/dev/null") ∨
      (0 ≤ env.open_result ∧ env.tcgetattr_ok = true ∧ env.tcsetattr_ok = true)) :
    ∃ fd, init env s (some pn) spd = (EXIT_SUCCESS, freshState fd) := by
  by_cases hd : pn = ("/dev/null")
  · subst hd
    refine ⟨1, ?_⟩
    have h9 : ¬ (("/dev/null" : String).length > MAX_PORT_NAME) := by decide
    simp [init, init_tail, hi, h9, hsem, hcal, freshState]
  · rcases htr with hd2 | ⟨ho, hg, ht⟩
    · exact absurd hd2 hd
    · refine ⟨env.open_result, ?_⟩
      have h1 : ¬ (pn.length > MAX_PORT_NAME) := by omega
      have h2 : ¬ (env.open_result < 0) := by omega
      simp [init, init_tail, hi, hd, h1, h2, hg, ht, hsem, hcal, freshState]

/-- C6: lifecycle state machine — when not initialised, `add` and
`get_next_command` fail without touching the state and both counts return 0;
`init` on an already-initialised module fails and changes nothing; `deinit`
when not initialised fails and changes nothing; `deinit` when initialised
succeeds and returns to the uninitialised state, after which `init` with a
valid port name (and cooperative transport and allocation) succeeds again
with a fresh pool: active empty, unused full. -/
theorem lifecycle_state_machine :
    (∀ s cmd, s.initialized = false → add s cmd = (EXIT_FAILURE, s)) ∧
    (∀ s d, s.initialized = false → get_next_command s d = (EXIT_FAILURE, none, s)) ∧
    (∀ s, s.initialized = false →
        get_active_command_count s = 0 ∧ get_unused_command_count s = 0) ∧
    (∀ env s pn spd, s.initialized = true → init env s pn spd = (EXIT_FAILURE, s)) ∧
    (∀ s, s.initialized = false → deinit s = (EXIT_FAILURE, s)) ∧
    (∀ s, s.initialized = true →
        (deinit s).1 = EXIT_SUCCESS ∧ (deinit s).2 = uninitState) ∧
    (∀ env s pn spd, s.initialized = true → pn.length ≤ MAX_PORT_NAME →
        env.sem_init_ok = true → env.calloc_ok = true →
        (pn = ("/dev/null") ∨
          (0 ≤ env.open_result ∧ env.tcgetattr_ok = true ∧ env.tcsetattr_ok = true)) →
        ∃ fd, init env (deinit s).2 (some pn) spd = (EXIT_SUCCESS, freshState fd)) := by
  refine ⟨?_, ?_, ?_, ?_, ?_, ?_, ?_⟩
  · intro s cmd h; simp [add, h]
  · intro s d h; simp [get_next_command, h]
  · intro s h; simp [get_active_command_count, get_unused_command_count, h]
  · intro env s pn spd h; simp [init, h]
  · intro s h; simp [deinit, h]
  · intro s h; simp [deinit, h, uninitState, EXIT_SUCCESS]
  · intro env s pn spd h hlen hsem hcal htr
    have hde : (deinit s).2 = uninitState := by simp [deinit, h, uninitState]
    rw [hde]
    exact init_ok env uninitState pn spd rfl hlen hsem hcal htr

/-- C6 witness: the state-machine laws applied concretely — failing calls
before init, double init failing, double deinit failing, and a successful
deinit followed by a successful re-init on `/dev/null`. -/
theorem lifecycle_state_machine_witness :
    add uninitState (some cmdE) = (EXIT_FAILURE, uninitState) ∧
    get_next_command uninitState true = (EXIT_FAILURE, none, uninitState) ∧
    (get_active_command_count uninitState = 0 ∧
      get_unused_command_count uninitState = 0) ∧
    init ⟨1, true, true, true, true⟩ (freshState 1) (some ("/dev/null")) 0 =
      (EXIT_FAILURE, freshState 1) ∧
    deinit uninitState = (EXIT_FAILURE, uninitState) ∧
    ((deinit (freshState 1)).1 = EXIT_SUCCESS ∧ (deinit (freshState 1)).2 = uninitState) ∧
    (∃ fd, init ⟨1, true, true, true, true⟩ (deinit (freshState 1)).2
        (some ("/dev/null")) 0 = (EXIT_SUCCESS, freshState fd)) :=
  ⟨lifecycle_state_machine.1 uninitState (some cmdE) rfl,
   lifecycle_state_machine.2.1 uninitState true rfl,
   lifecycle_state_machine.2.2.1 uninitState rfl,
   lifecycle_state_machine.2.2.2.1 ⟨1, true, true, true, true⟩ (freshState 1)
     (some ("/dev/null")) 0 rfl,
   lifecycle_state_machine.2.2.2.2.1 uninitState rfl,
   lifecycle_state_machine.2.2.2.2.2.1 (freshState 1) rfl,
   lifecycle_state_machine.2.2.2.2.2.2 ⟨1, true, true, true, true⟩ (freshState 1)
     ("/dev/null") 0 rfl (by decide) rfl rfl (Or.inl rfl)⟩

/-- C7 counterexample: on an initialised pool with an empty active queue, the
retrieve returns exactly the same observable result — return code
`EXIT_FAILURE` with nothing written to the destination — as the error
retrieves for a not-initialised module and for a missing destination, so the
empty-queue outcome is not distinguishable by the caller from those error
results. -/
theorem retrieve_none_indistinct :
    get_next_command (freshState 1) true = (EXIT_FAILURE, none, freshState 1) ∧
    (get_next_command (freshState 1) true).1 = (get_next_command uninitState true).1 ∧
    (get_next_command (freshState 1) true).2.1 =
      (get_next_command uninitState true).2.1 ∧
    (get_next_command (freshState 1) true).1 = (get_next_command (freshState 1) false).1 ∧
    (get_next_command (freshState 1) true).2.1 =
      (get_next_command (freshState 1) false).2.1 := by
  decide

/-- C7 amended: on any initialised pool, `get_next_command` with a valid
destination on an empty active queue returns `EXIT_FAILURE` with no command
written and the state unchanged — the normal empty-queue signal (logged as
info, not as a fault) — but it carries the same return code as the error
returns for a not-initialised module or a missing destination, so the caller
cannot distinguish them by return value. -/
theorem retrieve_empty_result (s : SerialState) (hi : s.initialized = true)
    (he : s.active_command_pool = []) :
    get_next_command s true = (EXIT_FAILURE, none, s) ∧
    (get_next_command s true).1 = (get_next_command uninitState true).1 := by
  constructor <;> simp [get_next_command, hi, he, uninitState]

/-- C7 witness: the amended empty-queue result on a fresh pool. -/
theorem retrieve_empty_result_witness :
    get_next_command (freshState 1) true = (EXIT_FAILURE, none, freshState 1) :=
  (retrieve_empty_result (freshState 1) rfl rfl).1

/-- C8: port-name precondition — when the module is not initialised, `init`
fails without touching any state if the port name is NULL or longer than
`MAX_PORT_NAME` (30) characters, while a name of exactly 30 characters passes
the check: with cooperative transport and allocation, `init` succeeds on
it. -/
theorem init_port_name_check :
    (∀ env s spd, s.initialized = false →
        init env s none spd = (EXIT_FAILURE, s)) ∧
    (∀ env s pn spd, s.initialized = false → pn.length > MAX_PORT_NAME →
        init env s (some pn) spd = (EXIT_FAILURE, s)) ∧
    (∀ env s pn spd, s.initialized = false → pn.length = MAX_PORT_NAME →
        env.sem_init_ok = true → env.calloc_ok = true → 0 ≤ env.open_result →
        env.tcgetattr_ok = true → env.tcsetattr_ok = true →
        (init env s (some pn) spd).1 = EXIT_SUCCESS) := by
  refine ⟨?_, ?_, ?_⟩
  · intro env s spd h
    simp [init, h]
  · intro env s pn spd h hlen
    simp [init, h, hlen]
  · intro env s pn spd h hlen hsem hcal ho hg ht
    obtain ⟨fd, hfd⟩ := init_ok env s pn spd h (le_of_eq hlen) hsem hcal
      (Or.inr ⟨ho, hg, ht⟩)
    rw [hfd]

/-- C8 witness: NULL port name and a 31-character name are rejected with the
state untouched, while a 30-character name initialises successfully. -/
theorem init_port_name_check_witness :
    init ⟨1, true, true, true, true⟩ uninitState none 0 = (EXIT_FAILURE, uninitState) ∧
    init ⟨1, true, true, true, true⟩ uninitState
      (some ("0123456789012345678901234567890")) 0 = (EXIT_FAILURE, uninitState) ∧
    (init ⟨1, true, true, true, true⟩ uninitState
      (some ("012345678901234567890123456789")) 0).1 = EXIT_SUCCESS :=
  ⟨init_port_name_check.1 ⟨1, true, true, true, true⟩ uninitState 0 rfl,
   init_port_name_check.2.1 ⟨1, true, true, true, true⟩ uninitState
     ("0123456789012345678901234567890") 0 rfl (by decide),
   init_port_name_check.2.2 ⟨1, true, true, true, true⟩ uninitState
     ("012345678901234567890123456789") 0 rfl (by decide) rfl rfl (by decide) rfl rfl⟩

/-- C9: test-mode shortcut — when the module is not initialised, `init` with
the exact port name `/dev/null` never consults the transport: for every
transport outcome and every speed it records the dummy positive handle 1 and
succeeds with a fresh pool, provided `sem_init` and the pool allocation
succeed. -/
theorem init_devnull_shortcut (env : Env) (s : SerialState) (spd : Int)
    (h : s.initialized = false) (hsem : env.sem_init_ok = true)
    (hcal : env.calloc_ok = true) :
    init env s (some ("/dev/null")) spd = (EXIT_SUCCESS, freshState 1) := by
  have h9 : ¬ (("/dev/null" : String).length > MAX_PORT_NAME) := by decide
  simp [init, init_tail, h, h9, hsem, hcal, freshState]

/-- C9 witness: `init` on `/dev/null` succeeds even when the transport would
fail (negative `open` result, failing termios calls) and at an arbitrary
speed value. -/
theorem init_devnull_shortcut_witness :
    init ⟨-1, false, false, true, true⟩ uninitState (some ("/dev/null")) 115200 =
      (EXIT_SUCCESS, freshState 1) :=
  init_devnull_shortcut ⟨-1, false, false, true, true⟩ uninitState 115200 rfl rfl rfl

/-- C10: retrieve-error atomicity for a missing destination — on any
initialised pool, `get_next_command` with a NULL destination fails with no
command written and leaves the state (both queues, every stored command in
its position) unchanged, so both counts are unchanged. -/
theorem retrieve_null_dest_atomic (s : SerialState) (_h : s.initialized = true) :
    get_next_command s false = (EXIT_FAILURE, none, s) ∧
    get_active_command_count (get_next_command s false).2.2 =
      get_active_command_count s ∧
    get_unused_command_count (get_next_command s false).2.2 =
      get_unused_command_count s := by
  refine ⟨?_, ?_, ?_⟩ <;> simp [get_next_command]

/-- C10 witness: on an initialised pool holding one Emergency command, a
NULL-destination retrieve fails and the command stays in the active pool. -/
theorem retrieve_null_dest_atomic_witness :
    get_next_command (add (freshState 1) (some cmdE)).2 false =
      (EXIT_FAILURE, none, (add (freshState 1) (some cmdE)).2) ∧
    get_active_command_count (add (freshState 1) (some cmdE)).2 = 1 :=
  ⟨(retrieve_null_dest_atomic (add (freshState 1) (some cmdE)).2 (by decide)).1,
   by decide⟩
